import Mathlib

/-!
Shallow embedding of the `npm_package` Rust crate (src/lib.rs).

The crate resolves metadata and the entry-point file of an installed npm
package.  We model:

  * paths (`std::path::PathBuf`) as lists of path components; `Path::join`
    with a relative string appends the string's `/`-separated components,
    and `Path::parent` drops the last component (`none` on the empty path);
  * the filesystem, the JSON decoder (`serde_json::from_str`) and the
    external package-name validator (`validate_npm_package_name::validate`)
    as an explicit environment `Env` of functions — they are declared
    external collaborators of the crate;
  * Rust panics (`unwrap` on `Err`/`None`) as the `Ret.panic` outcome,
    distinguished from ordinary `Option`/`Result` values.

Every function below is translated line by line from src/lib.rs and keeps
the source name where Lean allows it.
-/

/-- A filesystem path, as its list of components. -/
abbrev NPath : Type := List String

/-- Result of a Rust computation: either a value or a panic
(an `unwrap` that fired). -/
inductive Ret (α : Type) where
  | ok : α → Ret α
  | panic : Ret α
deriving DecidableEq, Repr

/-- Map a function over a non-panicking result. -/
def Ret.map {α β : Type} (f : α → β) : Ret α → Ret β
  | .ok a => .ok (f a)
  | .panic => .panic

/-- Split a character list at `/`, keeping empty components. -/
def splitSlash : List Char → List (List Char)
  | [] => [[]]
  | c :: cs =>
    match splitSlash cs with
    | [] => [[]]
    | g :: gs => if c = '/' then [] :: g :: gs else (c :: g) :: gs

/-- The `/`-separated components of a string (the same grouping as
splitting the string on `"/"`). -/
def pathComponents (s : String) : List String :=
  (splitSlash s.data).map List.asString

/-- Model of `Path::join` with a relative string: append the string's
`/`-separated components. -/
def pjoin (p : NPath) (s : String) : NPath :=
  p ++ pathComponents s

/-- Model of `Path::parent`: drop the final component; `none` when there
is none. -/
def pparent (p : NPath) : Option NPath :=
  match p with
  | [] => none
  | _ :: _ => some p.dropLast

/-- Rust enum `BinType` (src/lib.rs): a `bin` field is either a single
string or a map from command name to path. -/
inductive BinType where
  | String : String → BinType
  | HashMap : List (String × String) → BinType
deriving DecidableEq, Repr

/-- Rust enum `ExportValue` (src/lib.rs): a value of the `exports` map is
either a plain path string or a conditions map
(condition name → path). -/
inductive ExportValue where
  | String : String → ExportValue
  | HashMap : List (String × String) → ExportValue
deriving DecidableEq, Repr

/-- Rust struct `PackageJSON` (src/lib.rs): the decoded manifest.
`HashMap` fields are modelled as association lists looked up with
`List.lookup`. -/
structure PackageJSON where
  name : Option String := none
  version : Option String := none
  description : Option String := none
  homepage : Option String := none
  keywords : Option (List String) := none
  license : Option String := none
  private' : Option Bool := none
  author : Option String := none
  files : Option (List String) := none
  type : Option String := none
  main : Option String := none
  module : Option String := none
  exports : Option (List (String × ExportValue)) := none
  types : Option String := none
  browser : Option String := none
  bin : Option BinType := none
  scripts : Option (List (String × String)) := none
  dependencies : Option (List (String × String)) := none
  dev_dependencies : Option (List (String × String)) := none
  peer_dependencies : Option (List (String × String)) := none
  peer_dependencies_meta : Option (List (String × String)) := none
  optional_dependencies : Option (List (String × String)) := none
  engines : Option (List (String × String)) := none
deriving DecidableEq, Repr

/-- Rust struct `PackageInfo` (src/lib.rs): the assembled result. -/
structure PackageInfo where
  name : String
  version : String
  root_path : NPath
  package_json_path : NPath
  package_entry : NPath
  package_json : PackageJSON
deriving DecidableEq, Repr

/-- Result of `validate_npm_package_name::validate` (external crate):
two validity booleans. -/
structure ValidateResult where
  valid_for_new_packages : Bool
  valid_for_old_packages : Bool
deriving DecidableEq, Repr

/-- Rust struct `Options` (src/lib.rs): optional working-directory
override (a string path). -/
structure Options where
  cwd : Option String := none

/-- The crate's external collaborators: the `CURRENT_DIR` snapshot,
the name validator, and the filesystem / JSON-decoder primitives.
`try_exists` and `read_to_string` return `none` to model an `Err`
result of the underlying call; `from_str` returns `none` to model a
`serde_json` decode error. -/
structure Env where
  currentDir : NPath
  validate : String → ValidateResult
  try_exists : NPath → Option Bool
  read_to_string : NPath → Option String
  from_str : String → Option PackageJSON

/-- The working directory used by `resolve` (src/lib.rs lines 219-222):
the `cwd` option if supplied, else the `CURRENT_DIR` snapshot. -/
def cwd_of (env : Env) (options : Options) : NPath :=
  match options.cwd with
  | some c => pathComponents c
  | none => env.currentDir

/-- Rust `fn resolve` (src/lib.rs lines 218-230): join the working
directory with the relative id and check existence.
`id.try_exists().unwrap()` panics when the existence check itself
fails. -/
def resolve (env : Env) (name : String) (options : Options) :
    Ret (Except String NPath) :=
  let cwd := cwd_of env options
  let id := pjoin cwd name
  match env.try_exists id with
  | some true => .ok (Except.ok id)
  | some false => .ok (Except.error ("Cannot find module " ++ name))
  | none => .panic

/-- Rust `fn get_package_json_path` (src/lib.rs lines 149-157): locate
`node_modules/<name>/package.json`, converting the `Err` case to
`none`. -/
def get_package_json_path (env : Env) (name : String) (options : Options) :
    Ret (Option NPath) :=
  let id := "node_modules/" ++ name ++ "/package.json"
  match resolve env id options with
  | .ok (Except.ok p) => .ok (some p)
  | .ok (Except.error _) => .ok none
  | .panic => .panic

/-- Rust `fn is_package_exists` (src/lib.rs lines 169-173): true iff the
manifest path resolves. -/
def is_package_exists (env : Env) (name : String) (options : Options) :
    Ret Bool :=
  match get_package_json_path env name options with
  | .ok p => .ok p.isSome
  | .panic => .panic

/-- Rust `fn get_package_json` (src/lib.rs lines 175-182): read the file
(read failure → `none`) and decode it;
`serde_json::from_str(&json).unwrap()` panics on malformed JSON. -/
def get_package_json (env : Env) (path : NPath) : Ret (Option PackageJSON) :=
  match env.read_to_string path with
  | some json =>
    match env.from_str json with
    | some pkg_json => .ok (some pkg_json)
    | none => .panic
  | none => .ok none

/-- The legacy branch of entry resolution (src/lib.rs lines 210-211):
`root.join(pkg_json.main.as_ref().unwrap())` — panics when `main` is
absent. -/
def main_entry (root : NPath) (pkg_json : PackageJSON) : Ret NPath :=
  match pkg_json.main with
  | some m => .ok (pjoin root m)
  | none => .panic

/-- The entry-resolution precedence applied to a decoded manifest and its
containing directory (the body of `get_package_entry`,
src/lib.rs lines 190-212):
module-field rule, then root export, then legacy `main`.
The conditions-map branch unwraps `get("require")` when `import` is
absent, panicking when `require` is also absent. -/
def resolve_entry (root : NPath) (pkg_json : PackageJSON) : Ret NPath :=
  if h : pkg_json.type = some "module" ∧ pkg_json.module.isSome then
    .ok (pjoin root (pkg_json.module.get h.2))
  else
    match pkg_json.exports with
    | some exports =>
      match List.lookup "." exports with
      | some (ExportValue.String root_entry) => .ok (pjoin root root_entry)
      | some (ExportValue.HashMap root_entry) =>
        match List.lookup "import" root_entry with
        | some p => .ok (pjoin root p)
        | none =>
          match List.lookup "require" root_entry with
          | some p => .ok (pjoin root p)
          | none => .panic
      | none => main_entry root pkg_json
    | none => main_entry root pkg_json

/-- Rust `fn get_package_entry` (src/lib.rs lines 184-216): re-read and
re-decode the manifest at `path`, then apply `resolve_entry` to its
containing directory (`path.parent().unwrap()` panics on a parentless
path). -/
def get_package_entry (env : Env) (path : NPath) : Ret (Option NPath) :=
  match get_package_json env path with
  | .ok (some pkg_json) =>
    match pparent path with
    | some root =>
      match resolve_entry root pkg_json with
      | .ok p => .ok (some p)
      | .panic => .panic
    | none => .panic
  | .ok none => .ok none
  | .panic => .panic

/-- Rust `fn get_package_info` (src/lib.rs lines 115-147): validate the
name, locate and decode the manifest, compute the entry, and assemble
a `PackageInfo`.  The `version?` operator makes a missing version a
`none` result; `parent().unwrap()` on the manifest path panics when it
has no parent. -/
def get_package_info (env : Env) (name : String) (options : Options) :
    Ret (Option PackageInfo) :=
  let validate_result := env.validate name
  if !validate_result.valid_for_new_packages ∧
      !validate_result.valid_for_old_packages then
    .ok none
  else
    match get_package_json_path env name options with
    | .panic => .panic
    | .ok none => .ok none
    | .ok (some package_json_path) =>
      match get_package_json env package_json_path with
      | .panic => .panic
      | .ok package_json =>
        match get_package_entry env package_json_path with
        | .panic => .panic
        | .ok package_entry =>
          match package_json, package_entry with
          | some pkg_json, some entry =>
            match pkg_json.version with
            | none => .ok none
            | some version =>
              match pparent package_json_path with
              | none => .panic
              | some root_path =>
                .ok (some
                  { name := name
                    version := version
                    root_path := root_path
                    package_json_path := package_json_path
                    package_entry := entry
                    package_json := pkg_json })
          | _, _ => .ok none

/-- The manifest path `is_package_exists` and `get_package_info` probe:
`<cwd>/node_modules/<name>/package.json`. -/
def manifest_path (env : Env) (name : String) (options : Options) : NPath :=
  pjoin (cwd_of env options) ("node_modules/" ++ name ++ "/package.json")

/-- Decode-once entry resolution, following §4.4 step 4 of the spec: the
entry path obtained by applying the precedence algorithm directly to a
manifest value that was already decoded, instead of re-reading and
re-decoding the manifest file as `get_package_entry` does. -/
def entry_once (root : NPath) (pkg_json : PackageJSON) : Ret (Option NPath) :=
  (resolve_entry root pkg_json).map some

/-! Concrete fixtures, used only to instantiate theorems at closed
inputs. -/

/-- Manifest path of the fixture package `foo` under working directory
`/app`. -/
def sample_path : NPath := ["", "app", "node_modules", "foo", "package.json"]

/-- An environment in which exactly `sample_path` exists, its content is
the literal text `"json"`, and that text decodes to the given manifest. -/
def sample_env (pkg_json : PackageJSON) : Env :=
  { currentDir := ["", "app"]
    validate := fun _ => ⟨true, true⟩
    try_exists := fun p => if p = sample_path then some true else some false
    read_to_string := fun p => if p = sample_path then some "json" else none
    from_str := fun s => if s = "json" then some pkg_json else none }

/-- Fixture manifest: `type: "module"` with a `module` field, plus
competing `main` and `exports` fields. -/
def pj_module : PackageJSON :=
  { version := some "1.0.0"
    type := some "module"
    module := some "./dist/index.mjs"
    main := some "./lib/index.cjs"
    exports := some [(".", ExportValue.String "./x.js")] }

/-- Fixture manifest: conditions-map root export with both `import` and
`require`. -/
def pj_exports_import : PackageJSON :=
  { version := some "1.0.0"
    exports := some
      [(".", ExportValue.HashMap [("import", "./i.mjs"), ("require", "./r.cjs")])] }

/-- Fixture manifest: conditions-map root export with only `require`. -/
def pj_exports_require : PackageJSON :=
  { version := some "1.0.0"
    exports := some [(".", ExportValue.HashMap [("require", "./r.cjs")])] }

/-- Fixture manifest: plain-string root export. -/
def pj_exports_string : PackageJSON :=
  { version := some "1.0.0"
    exports := some [(".", ExportValue.String "./s.js")] }

/-- Fixture manifest: conditions-map root export with neither `import`
nor `require`. -/
def pj_exports_empty : PackageJSON :=
  { version := some "1.0.0"
    exports := some [(".", ExportValue.HashMap [])] }

/-- Fixture manifest: only a legacy `main` field. -/
def pj_main : PackageJSON :=
  { version := some "2.0.0"
    main := some "./index.js" }

/-- Fixture manifest: no entry field at all. -/
def pj_empty : PackageJSON := {}

/-- Fixture manifest: an entry but no `version`. -/
def pj_no_version : PackageJSON := { main := some "./index.js" }

/-- An environment whose existence check always fails
(`try_exists` returns `Err`). -/
def env_exists_err : Env :=
  { currentDir := ["", "app"]
    validate := fun _ => ⟨true, true⟩
    try_exists := fun _ => none
    read_to_string := fun _ => none
    from_str := fun _ => none }

/-- An environment in which no path exists (`try_exists` reports
`false` everywhere). -/
def env_absent : Env :=
  { currentDir := ["", "app"]
    validate := fun _ => ⟨true, true⟩
    try_exists := fun _ => some false
    read_to_string := fun _ => none
    from_str := fun _ => none }

/-- An environment in which `sample_path` exists and reads successfully
but its text decodes to nothing (malformed JSON). -/
def env_malformed : Env :=
  { currentDir := ["", "app"]
    validate := fun _ => ⟨true, true⟩
    try_exists := fun p => if p = sample_path then some true else some false
    read_to_string := fun p => if p = sample_path then some "json" else none
    from_str := fun _ => none }

/-- The `PackageInfo` produced for the fixture package `foo` with manifest
`pj_main` in `sample_env pj_main`. -/
def info_main : PackageInfo :=
  { name := "foo"
    version := "2.0.0"
    root_path := ["", "app", "node_modules", "foo"]
    package_json_path := sample_path
    package_entry := pjoin ["", "app", "node_modules", "foo"] "./index.js"
    package_json := pj_main }

/-! Claim theorems. -/

/-- C2: for every manifest with `type = "module"` and a present `module`
field, `get_package_entry` returns the containing directory joined with
the `module` field value, even if `exports` or `main` are also present. -/
theorem c2_module_field_wins (env : Env) (path : NPath) (json : String)
    (pkg_json : PackageJSON) (root : NPath) (m : String)
    (hread : env.read_to_string path = some json)
    (hdec : env.from_str json = some pkg_json)
    (hroot : pparent path = some root)
    (htype : pkg_json.type = some "module")
    (hmod : pkg_json.module = some m) :
    get_package_entry env path = .ok (some (pjoin root m)) := by
  have hj : get_package_json env path = .ok (some pkg_json) := by
    simp [get_package_json, hread, hdec]
  simp [get_package_entry, hj, hroot, resolve_entry, htype, hmod]

/-- C2 witness: the fixture `pj_module` also carries `main` and `exports`,
and the resolved entry is the `module` field joined onto the containing
directory. -/
theorem c2_module_field_wins_witness :
    get_package_entry (sample_env pj_module) sample_path =
      .ok (some (pjoin ["", "app", "node_modules", "foo"] "./dist/index.mjs")) :=
  c2_module_field_wins (sample_env pj_module) sample_path "json" pj_module
    ["", "app", "node_modules", "foo"] "./dist/index.mjs"
    (by decide) (by decide) (by decide) (by decide) (by decide)

/-- Helper: a successful read followed by a successful decode makes
`get_package_json` return the decoded manifest. -/
theorem get_package_json_eq (env : Env) (path : NPath) (json : String)
    (pkg_json : PackageJSON)
    (hread : env.read_to_string path = some json)
    (hdec : env.from_str json = some pkg_json) :
    get_package_json env path = .ok (some pkg_json) := by
  simp [get_package_json, hread, hdec]

/-- C1: for every manifest with no `type = "module"`/`module` pairing
whose `exports` map contains the key `"."`, `get_package_entry` returns
the containing directory joined with: the root export itself when it is
a plain string; otherwise the `import` condition's path if present
(whether or not `require` is also present), else the `require`
condition's path. -/
theorem c1_root_export (env : Env) (path : NPath) (json : String)
    (pkg_json : PackageJSON) (exports : List (String × ExportValue))
    (root : NPath)
    (hread : env.read_to_string path = some json)
    (hdec : env.from_str json = some pkg_json)
    (hroot : pparent path = some root)
    (hmod : ¬(pkg_json.type = some "module" ∧ pkg_json.module.isSome))
    (hex : pkg_json.exports = some exports) :
    (∀ s, List.lookup "." exports = some (ExportValue.String s) →
      get_package_entry env path = .ok (some (pjoin root s))) ∧
    (∀ m i, List.lookup "." exports = some (ExportValue.HashMap m) →
      List.lookup "import" m = some i →
      get_package_entry env path = .ok (some (pjoin root i))) ∧
    (∀ m r, List.lookup "." exports = some (ExportValue.HashMap m) →
      List.lookup "import" m = none →
      List.lookup "require" m = some r →
      get_package_entry env path = .ok (some (pjoin root r))) := by
  have hj := get_package_json_eq env path json pkg_json hread hdec
  refine ⟨?_, ?_, ?_⟩
  · intro s hdot
    simp [get_package_entry, hj, hroot, resolve_entry, dif_neg hmod, hex, hdot]
  · intro m i hdot hi
    simp [get_package_entry, hj, hroot, resolve_entry, dif_neg hmod, hex, hdot,
      hi]
  · intro m r hdot hi hr
    simp [get_package_entry, hj, hroot, resolve_entry, dif_neg hmod, hex, hdot,
      hi, hr]

/-- C1 witness: the fixture `pj_exports_import` has a conditions-map root
export carrying both `import` and `require`, and the `import` path wins. -/
theorem c1_root_export_witness :
    get_package_entry (sample_env pj_exports_import) sample_path =
      .ok (some (pjoin ["", "app", "node_modules", "foo"] "./i.mjs")) :=
  (c1_root_export (sample_env pj_exports_import) sample_path "json"
      pj_exports_import
      [(".", ExportValue.HashMap [("import", "./i.mjs"), ("require", "./r.cjs")])]
      ["", "app", "node_modules", "foo"]
      (by decide) (by decide) (by decide) (by decide) (by decide)).2.1
    [("import", "./i.mjs"), ("require", "./r.cjs")] "./i.mjs"
    (by decide) (by decide)

/-- C3: for every manifest matching neither the module-field rule nor the
exports rule, `get_package_entry` returns the containing directory joined
with the `main` field value when `main` is present. -/
theorem c3_main_fallback (env : Env) (path : NPath) (json : String)
    (pkg_json : PackageJSON) (root : NPath) (m : String)
    (hread : env.read_to_string path = some json)
    (hdec : env.from_str json = some pkg_json)
    (hroot : pparent path = some root)
    (hmod : ¬(pkg_json.type = some "module" ∧ pkg_json.module.isSome))
    (hex : ∀ ex, pkg_json.exports = some ex → List.lookup "." ex = none)
    (hmain : pkg_json.main = some m) :
    get_package_entry env path = .ok (some (pjoin root m)) := by
  have hj := get_package_json_eq env path json pkg_json hread hdec
  cases hpe : pkg_json.exports with
  | none =>
    simp [get_package_entry, hj, hroot, resolve_entry, dif_neg hmod, hpe,
      main_entry, hmain]
  | some ex =>
    simp [get_package_entry, hj, hroot, resolve_entry, dif_neg hmod, hpe,
      hex ex hpe, main_entry, hmain]

/-- C3 witness: the fixture `pj_main` has only a `main` field and resolves
to it. -/
theorem c3_main_fallback_witness :
    get_package_entry (sample_env pj_main) sample_path =
      .ok (some (pjoin ["", "app", "node_modules", "foo"] "./index.js")) :=
  c3_main_fallback (sample_env pj_main) sample_path "json" pj_main
    ["", "app", "node_modules", "foo"] "./index.js"
    (by decide) (by decide) (by decide) (by decide)
    (by intro ex hex; simp [pj_main] at hex) (by decide)

/-- C4: each of the three conditions — malformed JSON in a successfully
read manifest, a conditions-map root export with neither `import` nor
`require`, and a `main`-branch fall-through with `main` absent — makes
the operation panic rather than return `none`. -/
theorem c4_panic_conditions :
    (∀ (env : Env) (path : NPath) (json : String),
      env.read_to_string path = some json → env.from_str json = none →
      get_package_json env path = .panic ∧
        get_package_entry env path = .panic) ∧
    (∀ (root : NPath) (pkg_json : PackageJSON)
        (exports : List (String × ExportValue)) (m : List (String × String)),
      ¬(pkg_json.type = some "module" ∧ pkg_json.module.isSome) →
      pkg_json.exports = some exports →
      List.lookup "." exports = some (ExportValue.HashMap m) →
      List.lookup "import" m = none → List.lookup "require" m = none →
      resolve_entry root pkg_json = .panic) ∧
    (∀ (root : NPath) (pkg_json : PackageJSON),
      ¬(pkg_json.type = some "module" ∧ pkg_json.module.isSome) →
      (∀ ex, pkg_json.exports = some ex → List.lookup "." ex = none) →
      pkg_json.main = none →
      resolve_entry root pkg_json = .panic) := by
  refine ⟨?_, ?_, ?_⟩
  · intro env path json hread hdec
    have hj : get_package_json env path = .panic := by
      simp [get_package_json, hread, hdec]
    exact ⟨hj, by simp [get_package_entry, hj]⟩
  · intro root pkg_json exports m hmod hex hdot hi hr
    simp [resolve_entry, dif_neg hmod, hex, hdot, hi, hr]
  · intro root pkg_json hmod hex hmain
    cases hpe : pkg_json.exports with
    | none => simp [resolve_entry, dif_neg hmod, hpe, main_entry, hmain]
    | some ex =>
      simp [resolve_entry, dif_neg hmod, hpe, hex ex hpe, main_entry, hmain]

/-- C4 witness: the three panic conditions instantiated on fixtures — a
malformed manifest, a conditions map with no `import`/`require`, and a
manifest with no entry field at all. -/
theorem c4_panic_conditions_witness :
    (get_package_json env_malformed sample_path = .panic ∧
      get_package_entry env_malformed sample_path = .panic) ∧
    resolve_entry ["", "app", "node_modules", "foo"] pj_exports_empty =
      .panic ∧
    resolve_entry ["", "app", "node_modules", "foo"] pj_empty = .panic :=
  ⟨c4_panic_conditions.1 env_malformed sample_path "json" (by decide)
      (by decide),
    c4_panic_conditions.2.1 ["", "app", "node_modules", "foo"]
      pj_exports_empty [(".", ExportValue.HashMap [])] [] (by decide)
      (by decide) (by decide) (by decide) (by decide),
    c4_panic_conditions.2.2 ["", "app", "node_modules", "foo"] pj_empty
      (by decide) (by intro ex hex; simp [pj_empty] at hex) (by decide)⟩

/-- C5: for every name the validator rejects under both current and legacy
rules, `get_package_info` returns `none` regardless of the filesystem
state carried by the environment. -/
theorem c5_invalid_name (env : Env) (name : String) (options : Options)
    (h1 : (env.validate name).valid_for_new_packages = false)
    (h2 : (env.validate name).valid_for_old_packages = false) :
    get_package_info env name options = .ok none := by
  simp [get_package_info, h1, h2]

/-- C5 witness: with an all-rejecting validator and a filesystem whose
existence check always fails, `get_package_info` still returns `none`
(it never reaches the filesystem). -/
theorem c5_invalid_name_witness :
    get_package_info
      { currentDir := ["", "app"]
        validate := fun _ => ⟨false, false⟩
        try_exists := fun _ => none
        read_to_string := fun _ => none
        from_str := fun _ => none } "foo" {} = .ok none :=
  c5_invalid_name
    { currentDir := ["", "app"]
      validate := fun _ => ⟨false, false⟩
      try_exists := fun _ => none
      read_to_string := fun _ => none
      from_str := fun _ => none } "foo" {} (by decide) (by decide)

/-- C6: `is_package_exists` answers `true` exactly when
`<cwd>/node_modules/<name>/package.json` exists on the filesystem, and
its result depends only on the existence primitive and the working
directory — not on the reader, decoder or validator, hence not on the
manifest's content. -/
theorem c6_exists_probe (env : Env) (name : String) (options : Options) :
    (is_package_exists env name options = .ok true ↔
      env.try_exists (manifest_path env name options) = some true) ∧
    (∀ env2 : Env, env2.try_exists = env.try_exists →
      env2.currentDir = env.currentDir →
      is_package_exists env2 name options =
        is_package_exists env name options) := by
  constructor
  · unfold is_package_exists get_package_json_path resolve manifest_path
      cwd_of pjoin
    cases h : env.try_exists
        ((match options.cwd with
          | some c => pathComponents c
          | none => env.currentDir) ++
          pathComponents ("node_modules/" ++ name ++ "/package.json")) with
    | none => simp [h]
    | some b => cases b <;> simp [h]
  · intro env2 he hc
    unfold is_package_exists get_package_json_path resolve cwd_of
    rw [he, hc]

/-- C6 witness: in an environment whose reader and decoder always fail,
`is_package_exists` still reports the fixture package present, and the
probe is stable under replacing the reader/decoder. -/
theorem c6_exists_probe_witness :
    (is_package_exists env_malformed "foo" {} = .ok true ↔
      env_malformed.try_exists (manifest_path env_malformed "foo" {}) =
        some true) ∧
    is_package_exists env_malformed "foo" {} =
      is_package_exists env_malformed "foo" {} :=
  ⟨(c6_exists_probe env_malformed "foo" {}).1,
    (c6_exists_probe env_malformed "foo" {}).2 env_malformed rfl rfl⟩

/-- C7: `get_package_info` returns `none` whenever the loaded manifest
lacks a `version`, even with the path resolved, the manifest decoded and
an entry computed; and any returned `PackageInfo` carries the manifest's
own version string. -/
theorem c7_version_guard (env : Env) (name : String) (options : Options) :
    (∀ (p : NPath) (pkg_json : PackageJSON) (entry : NPath),
      get_package_json_path env name options = .ok (some p) →
      get_package_json env p = .ok (some pkg_json) →
      get_package_entry env p = .ok (some entry) →
      pkg_json.version = none →
      get_package_info env name options = .ok none) ∧
    (∀ info : PackageInfo,
      get_package_info env name options = .ok (some info) →
      info.package_json.version = some info.version) := by
  constructor
  · intro p pkg_json entry hpath hjson hentry hv
    simp only [get_package_info]
    split <;> simp_all
  · intro info h
    simp only [get_package_info] at h
    split at h
    all_goals try simp at h
    split at h
    all_goals try simp at h
    split at h
    all_goals try simp at h
    split at h
    all_goals try simp at h
    split at h
    all_goals try simp at h
    split at h
    all_goals try simp at h
    split at h
    all_goals try simp at h
    subst h
    simp_all

/-- C7 witness: the fixture `pj_no_version` decodes and resolves an entry
yet yields `none`; the fixture `pj_main` yields an info whose version is
the manifest's. -/
theorem c7_version_guard_witness :
    get_package_info (sample_env pj_no_version) "foo" {} = .ok none ∧
    info_main.package_json.version = some info_main.version :=
  ⟨(c7_version_guard (sample_env pj_no_version) "foo" {}).1 sample_path
      pj_no_version (pjoin ["", "app", "node_modules", "foo"] "./index.js")
      (by decide) (by decide) (by decide) (by decide),
    (c7_version_guard (sample_env pj_main) "foo" {}).2 info_main (by decide)⟩

/-- C8: for a fixed manifest file content, the entry `get_package_entry`
obtains by re-reading and re-decoding the manifest equals the entry
obtained by applying the precedence algorithm to the manifest value
already loaded — decoding once and reusing the result is equivalent. -/
theorem c8_decode_once (env : Env) (path : NPath) (pkg_json : PackageJSON)
    (root : NPath)
    (hjson : get_package_json env path = .ok (some pkg_json))
    (hroot : pparent path = some root) :
    get_package_entry env path = entry_once root pkg_json := by
  cases hre : resolve_entry root pkg_json with
  | ok p => simp [get_package_entry, entry_once, hjson, hroot, hre, Ret.map]
  | panic => simp [get_package_entry, entry_once, hjson, hroot, hre, Ret.map]

/-- C8 witness: on the fixture `pj_main`, the re-decoding pipeline and the
decode-once computation produce the same entry. -/
theorem c8_decode_once_witness :
    get_package_entry (sample_env pj_main) sample_path =
      entry_once ["", "app", "node_modules", "foo"] pj_main :=
  c8_decode_once (sample_env pj_main) sample_path pj_main
    ["", "app", "node_modules", "foo"] (by decide) (by decide)

/-- C9: entry resolution never consults the filesystem existence check —
`get_package_entry` depends only on the reader and decoder — and
`get_package_info` can return a `PackageInfo` whose `package_entry` does
not exist on disk. -/
theorem c9_pure_entry :
    (∀ (env env2 : Env) (path : NPath),
      env2.read_to_string = env.read_to_string →
      env2.from_str = env.from_str →
      get_package_entry env2 path = get_package_entry env path) ∧
    (get_package_info (sample_env pj_main) "foo" {} = .ok (some info_main) ∧
      (sample_env pj_main).try_exists info_main.package_entry =
        some false) := by
  refine ⟨?_, by decide, by decide⟩
  intro env env2 path hr hd
  unfold get_package_entry get_package_json
  rw [hr, hd]

/-- C9 witness: replacing an environment by one with the same reader and
decoder leaves `get_package_entry` unchanged. -/
theorem c9_pure_entry_witness :
    get_package_entry (sample_env pj_main) sample_path =
      get_package_entry (sample_env pj_main) sample_path :=
  c9_pure_entry.1 (sample_env pj_main) (sample_env pj_main) sample_path
    rfl rfl

/-- C10: `resolve` panics when the existence check itself fails, and its
`Err` branch is reached only when the check succeeds and reports the
path absent. -/
theorem c10_resolve_err_branch (env : Env) (name : String)
    (options : Options) :
    (env.try_exists (pjoin (cwd_of env options) name) = none →
      resolve env name options = .panic) ∧
    (∀ e, resolve env name options = .ok (Except.error e) →
      env.try_exists (pjoin (cwd_of env options) name) = some false) := by
  constructor
  · intro h
    simp [resolve, h]
  · intro e h
    simp only [resolve] at h
    cases hx : env.try_exists (pjoin (cwd_of env options) name) with
    | none => rw [hx] at h; simp at h
    | some b =>
      cases b with
      | true => rw [hx] at h; simp at h
      | false => rfl

/-- C10 witness: a failing existence check panics; a `false` existence
check is recovered from an `Err` result. -/
theorem c10_resolve_err_branch_witness :
    resolve env_exists_err "x" {} = .panic ∧
    env_absent.try_exists (pjoin (cwd_of env_absent {}) "x") = some false :=
  ⟨(c10_resolve_err_branch env_exists_err "x" {}).1 (by decide),
    (c10_resolve_err_branch env_absent "x" {}).2 ("Cannot find module x")
      (by rfl)⟩
